import Mathlib

/-!
# Verification of the parallellm-qa agent core

Shallow embedding of the agentic action-loop engine, the history compactor,
the trace recorder and the error-escalation pipeline of the repository,
together with theorems settling the specification claims.

Message contents are modelled as `List Char` (Python strings are character
sequences and all slicing in the source is character-based).
-/

namespace ParallelLMQA

/-! ## Data model: conversation messages (langchain message variants) -/

/-- A tool call requested by an assistant message:
`{name, args (string-keyed), id}`. -/
structure ToolCall where
  name : String
  args : List (String × String)
  id : String
deriving DecidableEq, Repr

/-- Tagged union of the message variants used by the flows:
`SystemMessage`, `HumanMessage`, `AIMessage` (with tool calls) and
`ToolMessage` (with `tool_call_id` and message `id`). -/
inductive Msg where
  | system (content : List Char)
  | human (content : List Char)
  | ai (content : List Char) (tool_calls : List ToolCall)
  | tool (content : List Char) (tool_call_id : String) (id : String)
deriving DecidableEq, Repr

namespace Msg

/-- The content payload of a message. -/
def content : Msg → List Char
  | .system c => c
  | .human c => c
  | .ai c _ => c
  | .tool c _ _ => c

/-- The message id (meaningful for `ToolMessage`s; empty otherwise). -/
def mid : Msg → String
  | .tool _ _ i => i
  | _ => ""

/-- The `tool_call_id` correlation id of a `ToolMessage` (empty otherwise). -/
def tcid : Msg → String
  | .tool _ t _ => t
  | _ => ""

/-- Whether the message is a `ToolMessage`. -/
def isTool : Msg → Bool
  | .tool _ _ _ => true
  | _ => false

/-- Length of the content payload. -/
def contentLen (m : Msg) : Nat := m.content.length

end Msg

/-! ## History compactor (`run_chats.py`, `contains_html` and
`truncate_html_tool_messages`) -/

/-- Boolean substring test (Python `pat in s`), executable. -/
def containsSub (pat : List Char) : List Char → Bool
  | [] => pat.isEmpty
  | c :: rest => pat.isPrefixOf (c :: rest) || containsSub pat rest

/-- `containsSub` decides the `IsInfix` relation. -/
theorem containsSub_correct (pat s : List Char) :
    containsSub pat s = true ↔ pat <:+: s := by
  induction s with
  | nil =>
    simp [containsSub, List.isEmpty_iff, List.infix_nil]
  | cons c rest ih =>
    simp only [containsSub, Bool.or_eq_true, List.isPrefixOf_iff_prefix, ih,
      List.infix_cons_iff]

/-- The markup indicators of `contains_html` (run_chats.py:47). -/
def htmlIndicators : List (List Char) :=
  ["<!DOCTYPE".toList, "<html".toList, "<head>".toList, "<body>".toList,
   "<div".toList, "<script".toList, "<span".toList]

/-- `contains_html` (run_chats.py:42-48): content contains one of the
markup indicator substrings. -/
def contains_html (content : List Char) : Bool :=
  htmlIndicators.any (fun ind => containsSub ind content)

/-- A message is a `ToolMessage` whose content contains HTML
(run_chats.py:65, 76). -/
def isHtmlTool (m : Msg) : Bool :=
  m.isTool && contains_html m.content

/-- Fuel-driven digit extraction (structural recursion, so that the kernel
can evaluate it on concrete inputs). -/
def decReprGo : Nat → Nat → List Char
  | 0, _ => []
  | fuel + 1, n =>
    if n = 0 then [] else decReprGo fuel (n / 10) ++ [Nat.digitChar (n % 10)]

theorem decReprGo_zero (fuel : Nat) : decReprGo fuel 0 = [] := by
  cases fuel <;> simp [decReprGo]

theorem decReprGo_congr :
    ∀ f₁ f₂ n, n ≤ f₁ → n ≤ f₂ → decReprGo f₁ n = decReprGo f₂ n := by
  intro f₁
  induction f₁ with
  | zero =>
    intro f₂ n h₁ _
    interval_cases n
    rw [decReprGo_zero, decReprGo_zero]
  | succ f ih =>
    intro f₂ n h₁ h₂
    by_cases hn : n = 0
    · subst hn
      rw [decReprGo_zero, decReprGo_zero]
    · obtain ⟨f₂', rfl⟩ : ∃ f₂', f₂ = f₂' + 1 := ⟨f₂ - 1, by omega⟩
      have hdiv : n / 10 < n := Nat.div_lt_self (by omega) (by norm_num)
      simp only [decReprGo, if_neg hn]
      rw [ih f₂' (n / 10) (by omega) (by omega)]

/-- Decimal digits of a positive natural number, most significant first
(the digits of Python `str(n)` for `n > 0`). -/
def decReprCore (n : Nat) : List Char := decReprGo n n

/-- The defining recurrence of `decReprCore`. -/
theorem decReprCore_eq (n : Nat) :
    decReprCore n =
      if n = 0 then [] else decReprCore (n / 10) ++ [Nat.digitChar (n % 10)] := by
  by_cases hn : n = 0
  · subst hn
    simp [decReprCore, decReprGo_zero]
  · obtain ⟨m, rfl⟩ : ∃ m, n = m + 1 := ⟨n - 1, by omega⟩
    simp only [decReprCore, decReprGo, if_neg hn]
    rw [decReprGo_congr m ((m + 1) / 10) ((m + 1) / 10)
      (by have := Nat.div_lt_self (Nat.succ_pos m) (show 1 < 10 by norm_num); omega)
      le_rfl]

/-- Python `str(n)` for a natural number, as a character list. -/
def decRepr (n : Nat) : List Char :=
  if n = 0 then ['0'] else decReprCore n

/-- The truncation marker `"\n... [truncated {k} characters] ...\n"`
inserted by `truncate_html_tool_messages` (run_chats.py:84). -/
def truncMarker (k : Nat) : List Char :=
  "\n... [truncated ".toList ++ decRepr k ++ " characters] ...\n".toList

/-- The head+tail digest of an over-long content: first 100 characters,
marker stating `len - 200`, last 100 characters (run_chats.py:84). -/
def truncContent (c : List Char) : List Char :=
  c.take 100 ++ truncMarker (c.length - 200) ++ c.drop (c.length - 100)

/-- The id of the last HTML-bearing `ToolMessage` of the history, if any
(run_chats.py:63-69). -/
def lastHtmlId (messages : List Msg) : Option String :=
  ((messages.filter isHtmlTool).getLast?).map Msg.mid

/-- Per-message processing of `truncate_html_tool_messages`
(run_chats.py:75-96): HTML `ToolMessage`s other than the one whose id is
the last HTML message id are truncated when longer than 300 characters;
everything else passes through unchanged. -/
def compactMsg (lastId : Option String) (m : Msg) : Msg :=
  if isHtmlTool m then
    if some m.mid = lastId then m
    else if 300 < m.content.length then
      Msg.tool (truncContent m.content) m.tcid m.mid
    else m
  else m

/-- `truncate_html_tool_messages` (run_chats.py:51-101). -/
def truncate_html_tool_messages (messages : List Msg) : List Msg :=
  messages.map (compactMsg (lastHtmlId messages))

example :
    truncate_html_tool_messages [Msg.human "hi".toList] = [Msg.human "hi".toList] := by
  decide

example : decRepr 101 = ['1', '0', '1'] := by decide

set_option maxRecDepth 4000 in
example :
    truncContent (List.replicate 301 'a') =
      List.replicate 100 'a' ++ truncMarker 101 ++ List.replicate 100 'a' := by
  decide

/-! ### Length facts about the decimal representation and the digest -/

theorem decReprCore_zero : decReprCore 0 = [] := by
  rw [decReprCore_eq]
  simp

theorem decReprCore_length_le (d : Nat) :
    ∀ n, n < 10 ^ d → (decReprCore n).length ≤ d := by
  induction d with
  | zero =>
    intro n hn
    interval_cases n
    simp [decReprCore_zero]
  | succ d ih =>
    intro n hn
    rw [decReprCore_eq]
    split
    · simp
    · rename_i hn0
      rw [List.length_append, List.length_singleton]
      have hdiv : n / 10 < 10 ^ d := by
        rw [Nat.div_lt_iff_lt_mul (by norm_num)]
        calc n < 10 ^ (d + 1) := hn
        _ = 10 ^ d * 10 := by rw [pow_succ]
      exact Nat.add_le_add_right (ih _ hdiv) 1

theorem le_decReprCore_length (d : Nat) :
    ∀ n, 10 ^ d ≤ n → d + 1 ≤ (decReprCore n).length := by
  induction d with
  | zero =>
    intro n hn
    rw [decReprCore_eq]
    split
    · omega
    · simp
  | succ d ih =>
    intro n hn
    have hpos : 0 < n := lt_of_lt_of_le (pow_pos (by norm_num) (d + 1)) hn
    have hn0 : n ≠ 0 := by omega
    rw [decReprCore_eq]
    split
    · omega
    · rw [List.length_append, List.length_singleton]
      have hdiv : 10 ^ d ≤ n / 10 := by
        rw [Nat.le_div_iff_mul_le (by norm_num)]
        calc 10 ^ d * 10 = 10 ^ (d + 1) := (pow_succ 10 d).symm
        _ ≤ n := hn
      exact Nat.add_le_add_right (ih _ hdiv) 1

theorem decRepr_length_le {d n : Nat} (hd : 0 < d) (hn : n < 10 ^ d) :
    (decRepr n).length ≤ d := by
  rw [decRepr]
  split
  · simpa using hd
  · exact decReprCore_length_le d n hn

theorem decRepr_pow_length : (decRepr (10 ^ 67)).length = 68 := by
  rw [decRepr, if_neg (by positivity)]
  refine le_antisymm (decReprCore_length_le 68 _ (by norm_num)) ?_
  exact le_decReprCore_length 67 _ le_rfl

theorem truncMarker_length (k : Nat) :
    (truncMarker k).length = 33 + (decRepr k).length := by
  simp only [truncMarker, List.length_append]
  norm_num [String.length, String.toList]
  omega

theorem truncContent_length {c : List Char} (h : 300 < c.length) :
    (truncContent c).length = 233 + (decRepr (c.length - 200)).length := by
  simp only [truncContent, List.length_append, List.length_take,
    List.length_drop, truncMarker_length]
  omega

/-- Under the (astronomically generous) bound on the original content,
the digest never exceeds the 300-character threshold. -/
theorem truncContent_length_le {c : List Char} (h : 300 < c.length)
    (hb : c.length < 10 ^ 67 + 200) :
    (truncContent c).length ≤ 300 := by
  rw [truncContent_length h]
  have : (decRepr (c.length - 200)).length ≤ 67 :=
    decRepr_length_le (by norm_num) (by omega)
  omega

/-! ### Structure of the compactor: stability of the "last HTML message"
and pointwise idempotence of per-message processing -/

theorem head?_filter_eq_find? {α : Type} (p : α → Bool) (l : List α) :
    (l.filter p).head? = l.find? p := by
  induction l with
  | nil => rfl
  | cons a t ih =>
    rw [List.filter_cons, List.find?_cons]
    cases h : p a
    · simp [h, ih]
    · simp [h]

theorem compactMsg_of_not_html {L : Option String} {m : Msg}
    (h : ¬isHtmlTool m = true) : compactMsg L m = m := by
  simp [compactMsg, h]

theorem compactMsg_of_lastId {L : Option String} {m : Msg}
    (hid : some m.mid = L) : compactMsg L m = m := by
  simp only [compactMsg, hid, if_true]
  split <;> rfl

theorem find?_map_compactMsg (L : Option String) (r : List Msg)
    (hfix : ∀ x, r.find? isHtmlTool = some x → compactMsg L x = x) :
    (r.map (compactMsg L)).find? isHtmlTool = r.find? isHtmlTool := by
  induction r with
  | nil => rfl
  | cons a t ih =>
    cases h : isHtmlTool a
    · have ha : compactMsg L a = a := compactMsg_of_not_html (by simp [h])
      rw [List.map_cons, ha, List.find?_cons, List.find?_cons, h]
      exact ih fun x hx => hfix x (by rw [List.find?_cons, h]; exact hx)
    · have ha : compactMsg L a = a := hfix a (by rw [List.find?_cons, h])
      rw [List.map_cons, ha, List.find?_cons, List.find?_cons, h]

theorem lastHtmlId_eq_find? (l : List Msg) :
    lastHtmlId l = (l.reverse.find? isHtmlTool).map Msg.mid := by
  rw [lastHtmlId, List.getLast?_eq_head?_reverse, ← List.filter_reverse,
    head?_filter_eq_find?]

/-- Compaction does not move the "last full HTML message" pointer:
re-running the scan on a compacted history finds the same message id. -/
theorem lastHtmlId_truncate (l : List Msg) :
    lastHtmlId (truncate_html_tool_messages l) = lastHtmlId l := by
  rw [truncate_html_tool_messages, lastHtmlId_eq_find?, lastHtmlId_eq_find?,
    ← List.map_reverse, find?_map_compactMsg]
  intro x hx
  exact compactMsg_of_lastId (by rw [hx]; rfl)

theorem compactMsg_idem {L : Option String} {m : Msg}
    (hb : m.contentLen < 10 ^ 67 + 200) :
    compactMsg L (compactMsg L m) = compactMsg L m := by
  by_cases h1 : isHtmlTool m = true
  · by_cases h2 : some m.mid = L
    · rw [compactMsg_of_lastId h2, compactMsg_of_lastId h2]
    · by_cases h3 : 300 < m.content.length
      · have hm : compactMsg L m = Msg.tool (truncContent m.content) m.tcid m.mid := by
          simp [compactMsg, h1, h2, h3]
        have hlen : ¬300 < (truncContent m.content).length := by
          have := truncContent_length_le h3 hb
          omega
        rw [hm]
        simp only [compactMsg]
        split
        · rw [if_neg (by simpa [Msg.mid] using h2), if_neg (by simpa [Msg.content] using hlen)]
        · rfl
      · have hm : compactMsg L m = m := by simp [compactMsg, h1, h2, h3]
        rw [hm, hm]
  · rw [compactMsg_of_not_html h1, compactMsg_of_not_html h1]

/-- `compactMsg` in flat conditional form: a message is rewritten exactly
when it is an HTML `ToolMessage`, its id differs from the last HTML
message id, and its content is strictly longer than 300 characters. -/
theorem compactMsg_eq_ite (L : Option String) (m : Msg) :
    compactMsg L m =
      if isHtmlTool m = true ∧ some m.mid ≠ L ∧ 300 < m.contentLen
      then Msg.tool (truncContent m.content) m.tcid m.mid
      else m := by
  by_cases h1 : isHtmlTool m = true
  · by_cases h2 : some m.mid = L
    · rw [compactMsg_of_lastId h2, if_neg (by tauto)]
    · by_cases h3 : 300 < m.content.length
      · rw [if_pos ⟨h1, h2, h3⟩]
        simp [compactMsg, h1, h2, h3]
      · rw [if_neg (by simp only [Msg.contentLen]; intro h; exact h3 h.2.2)]
        simp [compactMsg, h1, h2, h3]
  · rw [compactMsg_of_not_html h1, if_neg (by tauto)]

/-- Idempotence of the compactor on histories whose contents are below the
(astronomical) bound keeping every digest within the 300-char threshold. -/
theorem truncate_idem_of_bound (l : List Msg)
    (hb : ∀ m ∈ l, m.contentLen < 10 ^ 67 + 200) :
    truncate_html_tool_messages (truncate_html_tool_messages l)
      = truncate_html_tool_messages l := by
  conv_lhs => rw [truncate_html_tool_messages, lastHtmlId_truncate]
  rw [truncate_html_tool_messages, List.map_map]
  exact List.map_congr_left fun m hm => compactMsg_idem (hb m hm)

/-! ### The compaction contract as the specification words it

Transcription of the claimed contract, for comparison against the code's
`truncate_html_tool_messages`: "every ActionResult (ToolMessage) whose
content contains markup of at least 300 characters, except the single most
recent such message, is rewritten to its first 100 and last 100 characters
around a truncation marker; the most recent markup-bearing result and
every other message are returned unchanged". -/

/-- A `ToolMessage` that "contains markup of at least 300 characters". -/
def isBigHtmlTool (m : Msg) : Bool :=
  isHtmlTool m && decide (300 ≤ m.contentLen)

/-- Id of the most recent markup-≥300 `ToolMessage` (the claimed exception). -/
def claimedLastBigId (l : List Msg) : Option String :=
  ((l.filter isBigHtmlTool).getLast?).map Msg.mid

/-- The compaction output as claim C3 describes it. -/
def claimedCompact (l : List Msg) : List Msg :=
  l.map fun m =>
    if isBigHtmlTool m = true ∧ some m.mid ≠ claimedLastBigId l
    then Msg.tool (truncContent m.content) m.tcid m.mid
    else m

/-- History of 5 ToolMessages of which 3 contain markup of ≥ 300 chars:
lengths 350, 300, 5 (no markup), 350, 4. -/
def exHistory : List Msg :=
  [Msg.tool ("<div".toList ++ List.replicate 346 'a') "c1" "t1",
   Msg.tool ("<div".toList ++ List.replicate 296 'a') "c2" "t2",
   Msg.tool "hello".toList "c3" "t3",
   Msg.tool ("<div".toList ++ List.replicate 346 'b') "c4" "t4",
   Msg.tool "<div".toList "c5" "t5"]

/-! ### A history breaking idempotence of compaction

A content so long that the truncation marker's digit count pushes the
digest itself beyond the 300-character threshold, so the second pass
truncates the digest again. -/

/-- An HTML content of `10 ^ 67 + 200` characters. -/
def hugeContent : List Char := "<div".toList ++ List.replicate (10 ^ 67 + 196) 'a'

/-- Two HTML tool results; the first (huge) one is subject to truncation. -/
def hugeHistory : List Msg :=
  [Msg.tool hugeContent "c1" "t1", Msg.tool "<div".toList "c2" "t2"]

theorem contains_html_div (rest : List Char) :
    contains_html ("<div".toList ++ rest) = true := by
  refine List.any_eq_true.mpr ⟨"<div".toList, by decide, ?_⟩
  exact (containsSub_correct _ _).mpr ((List.prefix_append _ _).isInfix)

theorem hugeContent_length : hugeContent.length = 10 ^ 67 + 200 := by
  have h4 : ("<div".toList).length = 4 := by decide
  rw [hugeContent, List.length_append, h4, List.length_replicate]
  omega

theorem isHtmlTool_hugeMsg : isHtmlTool (Msg.tool hugeContent "c1" "t1") = true := by
  show (true && contains_html hugeContent) = true
  rw [Bool.true_and, hugeContent]
  exact contains_html_div _

theorem lastHtmlId_huge : lastHtmlId hugeHistory = some "t2" := by
  rw [lastHtmlId, hugeHistory, List.filter_cons, if_pos isHtmlTool_hugeMsg,
    List.filter_cons, if_pos (by decide), List.filter_nil]
  rfl

set_option maxRecDepth 20000 in
theorem compact_hugeMsg :
    compactMsg (some "t2") (Msg.tool hugeContent "c1" "t1")
      = Msg.tool (truncContent hugeContent) "c1" "t1" := by
  rw [compactMsg_eq_ite, if_pos]
  · rfl
  · refine ⟨isHtmlTool_hugeMsg, by decide, ?_⟩
    show 300 < hugeContent.length
    rw [hugeContent_length]
    norm_num

theorem compact_lastMsg :
    compactMsg (some "t2") (Msg.tool "<div".toList "c2" "t2")
      = Msg.tool "<div".toList "c2" "t2" :=
  compactMsg_of_lastId rfl

theorem truncate_huge :
    truncate_html_tool_messages hugeHistory =
      [Msg.tool (truncContent hugeContent) "c1" "t1",
       Msg.tool "<div".toList "c2" "t2"] := by
  rw [truncate_html_tool_messages, lastHtmlId_huge, hugeHistory, List.map_cons,
    List.map_cons, List.map_nil, compact_hugeMsg, compact_lastMsg]

theorem take100_div_replicate {N : Nat} (h : 96 ≤ N) :
    List.take 100 ("<div".toList ++ List.replicate N 'a')
      = "<div".toList ++ List.replicate 96 'a' := by
  have h4 : ("<div".toList).length = 4 := by decide
  rw [List.take_append_eq_append_take, List.take_of_length_le (by omega), h4,
    List.take_replicate]
  congr 1
  rw [show 100 - 4 = 96 from rfl, min_eq_left h]

theorem drop_div_replicate {N n : Nat} (h4n : 4 ≤ n) :
    List.drop n ("<div".toList ++ List.replicate N 'a')
      = List.replicate (N - (n - 4)) 'a' := by
  have h4 : ("<div".toList).length = 4 := by decide
  rw [List.drop_append_eq_append_drop, List.drop_eq_nil_of_le (by omega), h4,
    List.drop_replicate, List.nil_append]

theorem truncContent_huge_eq :
    truncContent hugeContent =
      "<div".toList ++ (List.replicate 96 'a'
        ++ truncMarker (10 ^ 67) ++ List.replicate 100 'a') := by
  rw [truncContent, hugeContent_length,
    show (10:Nat) ^ 67 + 200 - 200 = 10 ^ 67 by omega,
    show (10:Nat) ^ 67 + 200 - 100 = 10 ^ 67 + 100 by omega, hugeContent,
    take100_div_replicate (by omega), drop_div_replicate (by omega),
    show 10 ^ 67 + 196 - (10 ^ 67 + 100 - 4) = 100 by omega]
  simp [List.append_assoc]

theorem truncContent_huge_length : (truncContent hugeContent).length = 301 := by
  rw [truncContent_length (by rw [hugeContent_length]; norm_num),
    hugeContent_length, show (10:Nat) ^ 67 + 200 - 200 = 10 ^ 67 by omega,
    decRepr_pow_length]

set_option maxRecDepth 20000 in
theorem compact_digestMsg :
    compactMsg (some "t2") (Msg.tool (truncContent hugeContent) "c1" "t1")
      = Msg.tool (truncContent (truncContent hugeContent)) "c1" "t1" := by
  rw [compactMsg_eq_ite, if_pos]
  · rfl
  · refine ⟨?_, by decide, ?_⟩
    · show (true && contains_html (truncContent hugeContent)) = true
      rw [Bool.true_and, truncContent_huge_eq]
      exact contains_html_div _
    · show 300 < (truncContent hugeContent).length
      rw [truncContent_huge_length]
      norm_num

theorem truncate_truncate_huge :
    truncate_html_tool_messages (truncate_html_tool_messages hugeHistory) =
      [Msg.tool (truncContent (truncContent hugeContent)) "c1" "t1",
       Msg.tool "<div".toList "c2" "t2"] := by
  have hlast : lastHtmlId (truncate_html_tool_messages hugeHistory) = some "t2" := by
    rw [lastHtmlId_truncate, lastHtmlId_huge]
  rw [truncate_html_tool_messages, hlast, truncate_huge, List.map_cons,
    List.map_cons, List.map_nil, compact_digestMsg, compact_lastMsg]

theorem truncContent_digest_length :
    (truncContent (truncContent hugeContent)).length = 236 := by
  rw [truncContent_length (by rw [truncContent_huge_length]; norm_num),
    truncContent_huge_length, show (301 : Nat) - 200 = 101 by norm_num,
    show (decRepr 101).length = 3 by decide]

/-! ## Trace recorder

`run_and_save_execution_trace` of `run_chats.py` (lines 122-168) and of
`run_login.py` (lines 297-336), plus `message_to_dict`.  A langgraph
stream step is a node-name → node-update mapping; absent dictionary keys
are modelled as `none`. -/

/-- A node's state update as streamed by the graph (only the returned keys
are present; `.get` with a default models absent keys). -/
structure NodeUpdate where
  status : Option String
  health : Option String
  health_description : Option String
  goal : Option String
  messages : List Msg
  artefacts_dir : Option String
deriving DecidableEq, Repr

/-- One step of `app.stream(...)`: node name → update. -/
abbrev StreamStep := List (String × NodeUpdate)

/-- Serialized message (`message_to_dict`, run_chats.py:109-119):
type tag, content, tool calls when present and non-empty, and the
`tool_call_id` attribute when the message has one. -/
structure MsgDict where
  type : String
  content : List Char
  tool_calls : Option (List ToolCall)
  tool_call_id : Option String
deriving DecidableEq, Repr

/-- `message_to_dict` (run_chats.py:109-119, run_login.py:272-294). -/
def message_to_dict : Msg → MsgDict
  | .system c => ⟨"SystemMessage", c, none, none⟩
  | .human c => ⟨"HumanMessage", c, none, none⟩
  | .ai c tcs => ⟨"AIMessage", c, if tcs.isEmpty then none else some tcs, none⟩
  | .tool c t _ => ⟨"ToolMessage", c, none, some t⟩

/-- Per-node serialized snapshot (the chat flow records health fields, the
login flow leaves them absent). -/
structure NodeData where
  status : Option String
  health : Option String
  health_description : Option String
  goal : Option String
  messages : List MsgDict
  artefacts_dir : Option String
deriving DecidableEq, Repr

/-- The persisted `execution_trace.json` document; optional fields model
dictionary keys that may be absent. -/
structure TraceDoc where
  run_id : Option String
  run_type : Option String
  timestamp : String
  steps : List (List (String × NodeData))
  final_status : Option String
  final_health : Option String
  final_health_description : Option String
  total_steps : Option Nat
deriving DecidableEq, Repr

/-- Python truthiness of the captured `final_state`: the last streamed step
when the stream is non-empty and that step is a non-empty dict. -/
def finalState? (stream : List StreamStep) : Option StreamStep :=
  match stream.getLast? with
  | some st => if st.isEmpty then none else some st
  | none => none

/-- Last-writer-wins extraction of a field over a step's node updates
(run_chats.py:148-154: each present key overwrites the previous value). -/
def lastField (f : NodeUpdate → Option String) (st : StreamStep) : Option String :=
  st.foldl (fun acc p => match f p.2 with | some v => some v | none => acc) none

/-- First-writer-wins extraction (run_login.py:324-327: the loop breaks at
the first node update carrying a `status` key). -/
def firstField (f : NodeUpdate → Option String) (st : StreamStep) : Option String :=
  (st.find? (fun p => (f p.2).isSome)).bind (fun p => f p.2)

/-- Chat-flow node serialization (run_chats.py:135-143). -/
def chatSerializeNode (ns : NodeUpdate) : NodeData :=
  { status := ns.status, health := ns.health,
    health_description := ns.health_description, goal := ns.goal,
    messages := ns.messages.map message_to_dict,
    artefacts_dir := ns.artefacts_dir }

/-- Login-flow node serialization (run_login.py:310-316): no health keys. -/
def loginSerializeNode (ns : NodeUpdate) : NodeData :=
  { status := ns.status, health := none, health_description := none,
    goal := ns.goal, messages := ns.messages.map message_to_dict,
    artefacts_dir := ns.artefacts_dir }

/-- The chat flow's `run_and_save_execution_trace` (run_chats.py:122-160):
the trace dict is created with `run_id = str(uuid.uuid4())` before the
stream is consumed (the drawn uuid is the `runId` argument); the summary
fields are derived from the last step only, when truthy. -/
def chatExecutionTrace (runId runType ts : String)
    (stream : List StreamStep) : TraceDoc :=
  let steps := stream.map (fun st => st.map (fun p => (p.1, chatSerializeNode p.2)))
  match finalState? stream with
  | some st =>
    { run_id := some runId, run_type := some runType, timestamp := ts,
      steps := steps,
      final_status := lastField (fun ns => ns.status) st,
      final_health := lastField (fun ns => ns.health) st,
      final_health_description := lastField (fun ns => ns.health_description) st,
      total_steps := some steps.length }
  | none =>
    { run_id := some runId, run_type := some runType, timestamp := ts,
      steps := steps, final_status := none, final_health := none,
      final_health_description := none, total_steps := none }

/-- The login flow's `run_and_save_execution_trace` (run_login.py:297-336):
the trace dict holds only `timestamp` and `steps` (plus summary); no
`run_id` key is ever written. -/
def loginExecutionTrace (ts : String) (stream : List StreamStep) : TraceDoc :=
  let steps := stream.map (fun st => st.map (fun p => (p.1, loginSerializeNode p.2)))
  match finalState? stream with
  | some st =>
    { run_id := none, run_type := none, timestamp := ts, steps := steps,
      final_status := firstField (fun ns => ns.status) st,
      final_health := none, final_health_description := none,
      total_steps := some steps.length }
  | none =>
    { run_id := none, run_type := none, timestamp := ts, steps := steps,
      final_status := none, final_health := none,
      final_health_description := none, total_steps := none }

/-- The run-info dict returned by the chat flow's trace recorder
(run_chats.py:162-168): health fields of the FIRST node update of the
final step, with defaults. -/
def chatRunInfo (stream : List StreamStep) : String × String :=
  match finalState? stream with
  | some st =>
    match st.head? with
    | some p => (p.2.health.getD "UNKNOWN", p.2.health_description.getD "No description")
    | none => ("UNKNOWN", "No final state")
  | none => ("UNKNOWN", "No final state")

/-! ## Error-folder staging (`utils/files.py`, `copy_trace_to_error_folder`) -/

/-- The run id keying the error folder (files.py:71-77): the `run_id`
entry of the trace document, or a freshly drawn uuid when the key is
absent. -/
def errorFolderRunId (t : TraceDoc) (freshUuid : String) : String :=
  t.run_id.getD freshUuid

/-- The staged copy of the trace document (files.py:81-82, `shutil.copy2`
preserves the file contents byte for byte). -/
def errorFolderCopy (t : TraceDoc) : TraceDoc := t

/-! ## Run result contracts (`run_login` and `run_chats`) -/

/-- The observable browser state queried by `_is_logged_in`. -/
structure PageState where
  current_url : Option String
  has_password_input : Bool
deriving DecidableEq, Repr

/-- `_is_logged_in` (run_login.py:63-71): false when the lowered url
contains "login" or "signin" or a password input is present. -/
def is_logged_in (p : PageState) : Bool :=
  let url := ((p.current_url.getD "").toList).map Char.toLower
  if containsSub "login".toList url || containsSub "signin".toList url then false
  else !p.has_password_input

/-- The result of `run_chats` (run_chats.py:349-368): success iff the
health extracted from the execution trace run equals "OK". -/
def run_chats_result (stream : List StreamStep) (artefacts_dir : String) :
    Bool × String :=
  ((chatRunInfo stream).1 == "OK", artefacts_dir)

/-- The result of `run_login` (run_login.py:372-383): the trace is saved,
then success is the live environment predicate, regardless of the agent
conversation. -/
def run_login_result (_stream : List StreamStep) (page : PageState)
    (artefacts_dir : String) : Bool × String :=
  (is_logged_in page, artefacts_dir)

/-! ## Error escalation pipeline (`monitor.py`, `ErrorFolderMonitor`)

External effects (S3 per-file upload, SNS publish, local folder removal)
are modelled by outcome oracles `uploadOk`, `snsOk`, `deleteOk`; the
returned/accumulated values follow the source exactly. -/

/-- The monitor's configuration state after `__init__` (monitor.py:38-96). -/
structure MonitorCfg where
  s3_configured : Bool
  s3_prefix : String
  sns_configured : Bool
  no_delete : Bool
deriving DecidableEq, Repr

/-- A staged error folder: name (= run id), creation date string, its
`.png` captures, and its `execution_trace.json` when readable. -/
structure ErrFolder where
  name : String
  ctime_date : String
  pngs : List String
  trace : Option TraceDoc
deriving DecidableEq, Repr

/-- The S3 key root `{prefix}/{date}/{run_id}` (monitor.py:127-131). -/
def s3PathOf (cfg : MonitorCfg) (folder : ErrFolder) : String :=
  if cfg.s3_prefix ≠ "" then
    cfg.s3_prefix ++ "/" ++ folder.ctime_date ++ "/" ++ folder.name
  else folder.ctime_date ++ "/" ++ folder.name

/-- The files staged for upload: the trace document plus the captures
(monitor.py:136-138). -/
def stagedFiles (folder : ErrFolder) : List String :=
  "execution_trace.json" :: folder.pngs

/-- The number of staged files whose individual S3 upload succeeds
(monitor.py:140-153: the loop runs over the sorted file list and counts
successes; each `ClientError` is caught per file). -/
def uploadCount (uploadOk : String → Bool) (folder : ErrFolder) : Nat :=
  ((stagedFiles folder).mergeSort (fun a b => decide (a ≤ b))).countP uploadOk

/-- What `upload_folder_to_s3` returns: a 3-tuple on the not-configured
path (monitor.py:117), a 4-tuple everywhere else. -/
inductive UploadRet where
  | tup3 (success : Bool) (s3_path : Option String) (files_uploaded : Nat)
  | tup4 (success : Bool) (s3_path : Option String) (files_uploaded : Nat)
      (final_health_description : Option String)
deriving DecidableEq, Repr

/-- `ErrorFolderMonitor.upload_folder_to_s3` (monitor.py:103-167): per-file
upload failures are caught per file (`ClientError`), so `files_uploaded`
counts the successful ones; a missing/unreadable trace file throws into
the outer handler which returns `(False, None, 0, None)`. -/
def upload_folder_to_s3 (cfg : MonitorCfg) (uploadOk : String → Bool)
    (folder : ErrFolder) : UploadRet :=
  if cfg.s3_configured = false then .tup3 false none 0
  else
    match folder.trace with
    | none => .tup4 false none 0 none
    | some t =>
      .tup4 (decide (0 < uploadCount uploadOk folder))
        (some (s3PathOf cfg folder)) (uploadCount uploadOk folder)
        t.final_health_description

/-- The Python fault raised when a 3-tuple is unpacked into four names. -/
inductive PyError where
  | valueError
deriving DecidableEq, Repr

/-- `success, s3_path, files_uploaded, final_health_description = ...`
(monitor.py:312): unpacking raises `ValueError` on a 3-tuple. -/
def unpack4 : UploadRet → Except PyError (Bool × Option String × Nat × Option String)
  | .tup4 a b c d => .ok (a, b, c, d)
  | .tup3 _ _ _ => .error .valueError

/-- `ErrorFolderMonitor.delete_folder` (monitor.py:262-282): with
`no_delete` set it skips removal and still returns `True`. -/
def delete_folder (deleteOk : String → Bool) (folder : ErrFolder)
    (no_delete : Bool) : Bool :=
  if no_delete then true else deleteOk folder.name

/-- Whether `publish_sns_notification` actually delivers (monitor.py:181-238):
nothing is published when SNS is not configured. -/
def publish_delivered (cfg : MonitorCfg) (snsOk : String → Bool)
    (folder : ErrFolder) : Bool :=
  if cfg.sns_configured = false then false else snsOk folder.name

/-- The observable outcome of one `process_folders` run: the count it
returns, the folders for which a notification was attempted (with the
delivery outcome) and the folders actually removed from disk. -/
structure ProcOut where
  processed : Nat
  notified : List (String × Bool)
  deleted : List String
deriving DecidableEq, Repr

/-- One iteration of the `process_folders` loop (monitor.py:304-327). -/
def processOne (cfg : MonitorCfg) (uploadOk snsOk deleteOk : String → Bool)
    (acc : ProcOut) (folder : ErrFolder) : Except PyError ProcOut :=
  match unpack4 (upload_folder_to_s3 cfg uploadOk folder) with
  | .error e => .error e
  | .ok (success, s3_path, _, _) =>
    if success && s3_path.isSome then
      let acc1 := { acc with
        notified := acc.notified ++ [(folder.name, publish_delivered cfg snsOk folder)] }
      let delRet := delete_folder deleteOk folder cfg.no_delete
      .ok { acc1 with
        processed := acc1.processed + (if delRet then 1 else 0),
        deleted := acc1.deleted ++
          (if cfg.no_delete = false ∧ deleteOk folder.name = true
           then [folder.name] else []) }
    else .ok acc

/-- `ErrorFolderMonitor.process_folders` (monitor.py:284-330). -/
def process_folders (cfg : MonitorCfg) (uploadOk snsOk deleteOk : String → Bool)
    (folders : List ErrFolder) : Except PyError ProcOut :=
  folders.foldlM (processOne cfg uploadOk snsOk deleteOk) ⟨0, [], []⟩

/-- Upload success of a folder under the S3-configured path: trace present
and at least one staged file uploads. -/
def uploadSucc (uploadOk : String → Bool) (folder : ErrFolder) : Bool :=
  folder.trace.isSome && decide (0 < uploadCount uploadOk folder)

theorem upload_folder_configured {cfg : MonitorCfg} (uploadOk : String → Bool)
    (hcfg : cfg.s3_configured = true) (f : ErrFolder) :
    upload_folder_to_s3 cfg uploadOk f =
      match f.trace with
      | none => .tup4 false none 0 none
      | some t =>
        .tup4 (decide (0 < uploadCount uploadOk f)) (some (s3PathOf cfg f))
          (uploadCount uploadOk f) t.final_health_description := by
  rw [upload_folder_to_s3, if_neg (by rw [hcfg]; simp)]

theorem exceptOk_bind {ε α β : Type} (a : α) (f : α → Except ε β) :
    (Except.ok a >>= f : Except ε β) = f a := rfl

/-- One loop iteration, characterized: with S3 configured no exception
escapes, a folder with at least one uploaded file is notified and
(`no_delete` permitting) removed, any other folder is left untouched. -/
theorem processOne_eq {cfg : MonitorCfg} (uploadOk snsOk deleteOk : String → Bool)
    (hcfg : cfg.s3_configured = true) (acc : ProcOut) (f : ErrFolder) :
    processOne cfg uploadOk snsOk deleteOk acc f =
      .ok (if uploadSucc uploadOk f = true then
        { processed := acc.processed +
            (if delete_folder deleteOk f cfg.no_delete then 1 else 0),
          notified := acc.notified ++ [(f.name, publish_delivered cfg snsOk f)],
          deleted := acc.deleted ++
            (if cfg.no_delete = false ∧ deleteOk f.name = true
             then [f.name] else []) }
      else acc) := by
  cases htr : f.trace with
  | none =>
    have hs : uploadSucc uploadOk f = false := by simp [uploadSucc, htr]
    rw [processOne, upload_folder_configured uploadOk hcfg, htr, hs]
    simp [unpack4]
  | some t =>
    have hs : uploadSucc uploadOk f = decide (0 < uploadCount uploadOk f) := by
      simp [uploadSucc, htr]
    rw [processOne, upload_folder_configured uploadOk hcfg, htr, hs]
    cases hb : decide (0 < uploadCount uploadOk f) <;> simp [unpack4, hb]

/-- The `process_folders` loop, fully characterized over any starting
accumulator (S3 configured). -/
theorem process_folders_go {cfg : MonitorCfg}
    (uploadOk snsOk deleteOk : String → Bool) (hcfg : cfg.s3_configured = true) :
    ∀ (folders : List ErrFolder) (acc : ProcOut),
      folders.foldlM (processOne cfg uploadOk snsOk deleteOk) acc =
        .ok { processed := acc.processed +
                (folders.filter (uploadSucc uploadOk)).countP
                  (fun f => delete_folder deleteOk f cfg.no_delete),
              notified := acc.notified ++
                (folders.filter (uploadSucc uploadOk)).map
                  (fun f => (f.name, publish_delivered cfg snsOk f)),
              deleted := acc.deleted ++
                ((folders.filter (uploadSucc uploadOk)).filter
                  (fun f => cfg.no_delete = false ∧ deleteOk f.name = true)).map
                  (fun f => f.name) } := by
  intro folders
  induction folders with
  | nil =>
    intro acc
    simp only [List.foldlM_nil, List.filter_nil, List.countP_nil, List.map_nil,
      List.append_nil, Nat.add_zero]
    rfl
  | cons f t ih =>
    intro acc
    rw [List.foldlM_cons, processOne_eq uploadOk snsOk deleteOk hcfg]
    by_cases hf : uploadSucc uploadOk f = true
    · rw [if_pos hf, exceptOk_bind, ih]
      simp only [Except.ok.injEq, ProcOut.mk.injEq]
      refine ⟨?_, ?_, ?_⟩
      · rw [List.filter_cons_of_pos hf, List.countP_cons]
        split_ifs <;> omega
      · rw [List.filter_cons_of_pos hf, List.map_cons]
        simp [List.append_assoc]
      · rw [List.filter_cons_of_pos hf]
        by_cases hd : cfg.no_delete = false ∧ deleteOk f.name = true
        · rw [List.filter_cons_of_pos (by simp [hd]), List.map_cons]
          simp [hd, List.append_assoc]
        · rw [List.filter_cons_of_neg (by simp [hd])]
          simp [hd]
    · rw [if_neg hf, exceptOk_bind, ih,
        List.filter_cons_of_neg (by simpa using hf)]

/-! ## Action registry (`utils/tools.py` `build_common_tools` and
`run_login.py` `build_tools`)

Selenium primitives are modelled by their outcomes: `.ok` a successful
call, `.error e` an exception carrying message `e`. -/

/-- Python `str.replace`: replace the leftmost non-overlapping occurrences,
fuel-driven so the kernel can evaluate it (the fuel is the string length;
patterns are non-empty in all uses). -/
def replaceGo (pat repl : List Char) : Nat → List Char → List Char
  | 0, s => s
  | fuel + 1, s =>
    match s with
    | [] => []
    | c :: rest =>
      if pat.isPrefixOf (c :: rest) then
        repl ++ replaceGo pat repl fuel (rest.drop (pat.length - 1))
      else
        c :: replaceGo pat repl fuel rest

/-- Python `s.replace(pat, repl)` for non-empty `pat`. -/
def pyReplace (s pat repl : List Char) : List Char :=
  replaceGo pat repl s.length s

/-- Split at the leftmost non-overlapping occurrences of `pat`
(Python `str.split` semantics), fuel-driven. Transcribed for the claimed
contract "every occurrence of the placeholder is replaced": the text is
cut at every occurrence and re-joined with the credential value. -/
def splitGo (pat : List Char) : Nat → List Char → List (List Char)
  | 0, s => [s]
  | fuel + 1, s =>
    match s with
    | [] => [[]]
    | c :: rest =>
      if pat.isPrefixOf (c :: rest) then
        [] :: splitGo pat fuel (rest.drop (pat.length - 1))
      else
        match splitGo pat fuel rest with
        | [] => [[c]]
        | h :: t => (c :: h) :: t

/-- Python `s.split(pat)` for non-empty `pat`. -/
def pySplit (s pat : List Char) : List (List Char) :=
  splitGo pat s.length s

/-- Join segments with a separator (Python `sep.join(segments)`). -/
def joinWith (sep : List Char) : List (List Char) → List Char
  | [] => []
  | [x] => x
  | x :: y :: t => x ++ sep ++ joinWith sep (y :: t)

theorem splitGo_ne_nil (pat : List Char) (fuel : Nat) (s : List Char) :
    splitGo pat fuel s ≠ [] := by
  cases fuel with
  | zero => simp [splitGo]
  | succ f =>
    cases s with
    | nil => simp [splitGo]
    | cons c rest =>
      simp only [splitGo]
      split
      · simp
      · split <;> simp

/-- `str.replace` is exactly split-at-every-occurrence re-joined with the
replacement: every occurrence of the pattern is replaced. -/
theorem replaceGo_eq_joinWith (pat repl : List Char) :
    ∀ fuel s, s.length ≤ fuel →
      replaceGo pat repl fuel s = joinWith repl (splitGo pat fuel s) := by
  intro fuel
  induction fuel with
  | zero =>
    intro s h
    have hs : s = [] := List.eq_nil_of_length_eq_zero (by omega)
    subst hs
    rfl
  | succ f ih =>
    intro s h
    cases s with
    | nil => rfl
    | cons c rest =>
      simp only [replaceGo, splitGo]
      by_cases hp : pat.isPrefixOf (c :: rest) = true
      · rw [if_pos hp, if_pos hp,
          ih _ (by rw [List.length_drop]; simp at h; omega)]
        obtain ⟨x, t, hxt⟩ :=
          List.exists_cons_of_ne_nil (splitGo_ne_nil pat f (rest.drop (pat.length - 1)))
        rw [hxt]
        simp [joinWith]
      · rw [if_neg hp, if_neg hp, ih rest (by simp at h; omega)]
        obtain ⟨x, t, hxt⟩ := List.exists_cons_of_ne_nil (splitGo_ne_nil pat f rest)
        rw [hxt]
        cases t with
        | nil => rfl
        | cons y t' => simp [joinWith]

/-- `pyReplace` replaces every leftmost non-overlapping occurrence of the
pattern with the replacement: it equals cutting the text at each
occurrence and re-joining the segments with the replacement. -/
theorem pyReplace_eq_joinWith (s pat repl : List Char) :
    pyReplace s pat repl = joinWith repl (pySplit s pat) :=
  replaceGo_eq_joinWith pat repl s.length s le_rfl

/-- The reserved `<PASSWORD>` placeholder (tools.py:57-60). -/
def passwordPlaceholder : List Char := "<PASSWORD>".toList

/-- The reserved `<EMAIL>` placeholder (tools.py:57-60). -/
def emailPlaceholder : List Char := "<EMAIL>".toList

/-- The placeholder substitution loop of `type_text` (tools.py:56-66,
run_login.py:103-113): iterate over `{<PASSWORD>: pw, <EMAIL>: email}` in
insertion order, replacing each placeholder present in the current text
and recording its name. Returns the final text and the recorded names. -/
def substitutePlaceholders (text pw email : List Char) :
    List Char × List (List Char) :=
  let t1 := if containsSub passwordPlaceholder text then
    pyReplace text passwordPlaceholder pw else text
  let u1 : List (List Char) :=
    if containsSub passwordPlaceholder text then [passwordPlaceholder] else []
  let t2 := if containsSub emailPlaceholder t1 then
    pyReplace t1 emailPlaceholder email else t1
  let u2 : List (List Char) :=
    if containsSub emailPlaceholder t1 then [emailPlaceholder] else []
  (t2, u1 ++ u2)

/-- The data interpolated into the `type_text` log record
(tools.py:72-76): on substitution, only the selector, strategy and the
placeholder NAMES; otherwise the selector, strategy and the text length;
on an executor fault, the exception message. -/
inductive LogLine where
  | substituted (selector by_ : String) (used : List (List Char))
  | plainLen (selector by_ : String) (text_len : Nat)
  | errorLog (msg : String)
deriving DecidableEq, Repr

/-- Outcomes of the selenium primitives one action invocation touches. -/
structure DriverOutcome where
  find_element : Except String Unit
  clear : Except String Unit
  send_keys : Except String Unit
  click : Except String Unit

/-- A fault-free driver. -/
def okDriver : DriverOutcome :=
  ⟨.ok (), .ok (), .ok (), .ok ()⟩

/-- `by_map.get(by)` (tools.py:46-53). -/
def byMap : String → Option String
  | "css" => some "css selector"
  | "id" => some "id"
  | "name" => some "name"
  | "xpath" => some "xpath"
  | _ => none

/-- What one `type_text` invocation produces: the value returned across
the registry boundary (`.error` = an uncaught exception escaping), the
text delivered to `send_keys` (after substitution), and the log record. -/
structure TypeTextOut where
  ret : Except String String
  sent : Option (List Char)
  log : Option LogLine

/-- The `type_text` action of the shared registry (tools.py:39-80): the
whole driver interaction sits in `try/except`, every fault becomes the
string `"Error: ..."`. -/
def type_text_common (d : DriverOutcome) (pw email : List Char)
    (selector by_ : String) (text : List Char) : TypeTextOut :=
  match byMap by_ with
  | none =>
    { ret := .ok ("Unsupported selector strategy: " ++ by_),
      sent := none, log := none }
  | some _ =>
    let su := substitutePlaceholders text pw email
    match d.find_element with
    | .error e => { ret := .ok ("Error: " ++ e), sent := none,
                    log := some (.errorLog e) }
    | .ok _ =>
      match d.clear with
      | .error e => { ret := .ok ("Error: " ++ e), sent := none,
                      log := some (.errorLog e) }
      | .ok _ =>
        match d.send_keys with
        | .error e => { ret := .ok ("Error: " ++ e), sent := none,
                        log := some (.errorLog e) }
        | .ok _ =>
          { ret := .ok "OK", sent := some su.1,
            log := some (if su.2.isEmpty
              then .plainLen selector by_ su.1.length
              else .substituted selector by_ su.2) }

/-- The `type_text` action of the login flow's own registry
(run_login.py:87-123): same substitution and logging, but NO `try/except`
around the driver calls — a fault escapes as an exception. -/
def type_text_login (d : DriverOutcome) (pw email : List Char)
    (selector by_ : String) (text : List Char) : TypeTextOut :=
  match byMap by_ with
  | none =>
    { ret := .ok ("Unsupported selector strategy: " ++ by_),
      sent := none, log := none }
  | some _ =>
    let su := substitutePlaceholders text pw email
    match d.find_element with
    | .error e => { ret := .error e, sent := none, log := none }
    | .ok _ =>
      match d.clear with
      | .error e => { ret := .error e, sent := none, log := none }
      | .ok _ =>
        match d.send_keys with
        | .error e => { ret := .error e, sent := none, log := none }
        | .ok _ =>
          { ret := .ok "OK", sent := some su.1,
            log := some (if su.2.isEmpty
              then .plainLen selector by_ su.1.length
              else .substituted selector by_ su.2) }

/-- The `click` action of the shared registry (tools.py:82-101):
driver faults are caught and returned as `"Error: ..."` strings. -/
def click_common (d : DriverOutcome) (by_ : String) : Except String String :=
  match byMap by_ with
  | none => .ok ("Unsupported selector strategy: " ++ by_)
  | some _ =>
    match d.find_element with
    | .error e => .ok ("Error: " ++ e)
    | .ok _ =>
      match d.click with
      | .error e => .ok ("Error: " ++ e)
      | .ok _ => .ok "OK"

/-- The `click` action of the login flow's registry (run_login.py:125-140):
no `try/except`, faults escape. -/
def click_login (d : DriverOutcome) (by_ : String) : Except String String :=
  match byMap by_ with
  | none => .ok ("Unsupported selector strategy: " ++ by_)
  | some _ =>
    match d.find_element with
    | .error e => .error e
    | .ok _ =>
      match d.click with
      | .error e => .error e
      | .ok _ => .ok "OK"

/-! ## Agent loop state machines

`build_graph` (run_login.py:180-269) and `build_graph_chat`
(run_chats.py:171-299): node functions and routing are translated from
the source; the graph engine that drives them (langgraph, outside src/)
is modelled from the spec as a bounded step runner. -/

/-- The node kinds of both graphs: `agent`, `tools`, `check`. -/
inductive Node where
  | agent
  | tools
  | check
deriving DecidableEq, Repr

/-- The chat flow's loop state (run_chats.py:176-183). -/
structure ChatState where
  messages : List Msg
  num_turns : Nat
  turns_completed : Nat
  status : String
  health : String
  health_description : String
  goal : String
  artefacts_dir : String
deriving DecidableEq, Repr

/-- A decision function: conversation history to assistant output
(content and requested tool calls). -/
abbrev DecideFn := List Msg → List Char × List ToolCall

/-- `agent_node` of the chat graph (run_chats.py:185-201): the model is
invoked on the COMPACTED view of the history and its response appended to
the original history. -/
def chat_agent_node (decideFn : DecideFn) (s : ChatState) : ChatState :=
  let response := decideFn (truncate_html_tool_messages s.messages)
  { s with messages := s.messages ++ [Msg.ai response.1 response.2] }

/-- `tools_node` of the chat graph (run_chats.py:203-222): execute every
tool call of the last message, appending one `ToolMessage` per call, and
extract health/status from any `report_completion` call. -/
def chat_tools_node (execFn : ToolCall → List Char) (s : ChatState) : ChatState :=
  match s.messages.getLast? with
  | some (Msg.ai _ tcs) =>
    let base := { s with
      messages := s.messages ++ tcs.map (fun tc => Msg.tool (execFn tc) tc.id tc.id) }
    tcs.foldl (fun st tc =>
      if tc.name = "report_completion" then
        { st with
          health := (tc.args.lookup "health").getD "UNKNOWN",
          health_description := (tc.args.lookup "health_description").getD "",
          status := "completed" }
      else st) base
  | _ => s

/-- `check_node` of the chat graph (run_chats.py:224-233). -/
def chat_check_node (s : ChatState) : ChatState :=
  if s.status = "completed" then s else { s with status := "continue" }

/-- `should_continue` routing (run_chats.py:235-239, run_login.py:200-206):
to `tools` iff the last message carries tool calls. -/
def lastHasToolCalls (msgs : List Msg) : Bool :=
  match msgs.getLast? with
  | some (Msg.ai _ tcs) => !tcs.isEmpty
  | _ => false

/-- One chat-graph super-step: execute the node, return the new state and
the next node (`none` = END), following the edges of run_chats.py:249-252. -/
def chatStep (decideFn : DecideFn) (execFn : ToolCall → List Char) :
    Node → ChatState → ChatState × Option Node
  | .agent, s =>
    let s' := chat_agent_node decideFn s
    (s', some (if lastHasToolCalls s'.messages then .tools else .check))
  | .tools, s => (chat_tools_node execFn s, some .check)
  | .check, s =>
    let s' := chat_check_node s
    (s', if s'.status = "completed" then none else some .agent)

/-- Modelled from the spec: the graph engine (langgraph, not part of src/)
drives super-steps up to the configured recursion limit; "exceeding the
bound must terminate the run as a non-fatal failure ... not an unbounded
hang" (§4.3), so running out of fuel returns the state reached. -/
def runChat (decideFn : DecideFn) (execFn : ToolCall → List Char) :
    Nat → Node → ChatState → ChatState
  | 0, _, s => s
  | fuel + 1, nd, s =>
    match chatStep decideFn execFn nd s with
    | (s', none) => s'
    | (s', some nd') => runChat decideFn execFn fuel nd' s'

/-- The iteration cap configured by the chat flow (run_chats.py:350,
`recursion_limit: 100`). -/
def chatRecursionLimit : Nat := 100

/-- Modelled from the spec: the login flow passes no explicit limit
(run_login.py:372), so the graph engine's default cap applies; the spec
requires only "a larger bound for multi-turn chat flows than for
single-goal login flows" (§4.3), and the engine's default is 25. -/
def loginRecursionLimit : Nat := 25

/-- The login flow's loop state (run_login.py:184-188). -/
structure LoginState where
  messages : List Msg
  goal : String
  status : String
  artefacts_dir : String
deriving DecidableEq, Repr

/-- `agent_node` of the login graph (run_login.py:190-193): the model is
invoked on the raw history (no compaction) and its response appended. -/
def login_agent_node (decideFn : DecideFn) (s : LoginState) : LoginState :=
  let response := decideFn s.messages
  { s with messages := s.messages ++ [Msg.ai response.1 response.2] }

/-- The login graph's tool node (`ToolNode(tools)`, run_login.py:213):
appends one `ToolMessage` per tool call of the last message. -/
def login_tools_node (execFn : ToolCall → List Char) (s : LoginState) : LoginState :=
  match s.messages.getLast? with
  | some (Msg.ai _ tcs) =>
    { s with
      messages := s.messages ++ tcs.map (fun tc => Msg.tool (execFn tc) tc.id tc.id) }
  | _ => s

/-- `check_node` of the login graph (run_login.py:195-198): the status is
the live environment predicate, not any agent self-report. -/
def login_check_node (env : Bool) (s : LoginState) : LoginState :=
  { s with status := if env then "logged_in" else "continue" }

/-- One login-graph super-step (edges of run_login.py:220-239); `env` is
the `_is_logged_in(driver)` outcome at this step's check. -/
def loginStep (decideFn : DecideFn) (execFn : ToolCall → List Char) (env : Bool) :
    Node → LoginState → LoginState × Option Node
  | .agent, s =>
    let s' := login_agent_node decideFn s
    (s', some (if lastHasToolCalls s'.messages then .tools else .check))
  | .tools, s => (login_tools_node execFn s, some .check)
  | .check, s =>
    let s' := login_check_node env s
    (s', if s'.status = "logged_in" then none else some .agent)

/-- Modelled from the spec: bounded runner for the login graph (the graph
engine is outside src/); `env n` is the authentication predicate's value
at the step with `n` units of fuel left. -/
def runLogin (decideFn : DecideFn) (execFn : ToolCall → List Char)
    (env : Nat → Bool) : Nat → Node → LoginState → LoginState
  | 0, _, s => s
  | fuel + 1, nd, s =>
    match loginStep decideFn execFn (env fuel) nd s with
    | (s', none) => s'
    | (s', some nd') => runLogin decideFn execFn env fuel nd' s'

/-! ### Loop bound behaviour: a decision function that never signals
completion leaves the run non-completed with its health untouched -/

theorem chat_tools_fold_no_report (tcs : List ToolCall)
    (h : ∀ tc ∈ tcs, ¬tc.name = "report_completion") (base : ChatState) :
    tcs.foldl (fun st tc =>
      if tc.name = "report_completion" then
        { st with
          health := (tc.args.lookup "health").getD "UNKNOWN",
          health_description := (tc.args.lookup "health_description").getD "",
          status := "completed" }
      else st) base = base := by
  induction tcs generalizing base with
  | nil => rfl
  | cons tc t ih =>
    rw [List.foldl_cons, if_neg (h tc (by simp))]
    exact ih (fun x hx => h x (by simp [hx])) base

theorem chat_tools_node_fields (execFn : ToolCall → List Char) (s : ChatState)
    (h : ∀ c tcs, s.messages.getLast? = some (Msg.ai c tcs) →
      ∀ tc ∈ tcs, ¬tc.name = "report_completion") :
    (chat_tools_node execFn s).status = s.status ∧
    (chat_tools_node execFn s).health = s.health ∧
    (chat_tools_node execFn s).health_description = s.health_description := by
  cases hl : s.messages.getLast? with
  | none => simp [chat_tools_node, hl]
  | some m =>
    cases m with
    | ai c tcs =>
      simp only [chat_tools_node, hl]
      rw [chat_tools_fold_no_report tcs (h c tcs hl)]
      simp
    | system c => simp [chat_tools_node, hl]
    | human c => simp [chat_tools_node, hl]
    | tool c t i => simp [chat_tools_node, hl]

theorem runChat_succ_agent (decideFn : DecideFn) (execFn : ToolCall → List Char)
    (f : Nat) (s : ChatState) :
    runChat decideFn execFn (f + 1) Node.agent s =
      runChat decideFn execFn f
        (if lastHasToolCalls (chat_agent_node decideFn s).messages
         then Node.tools else Node.check)
        (chat_agent_node decideFn s) := rfl

theorem runChat_succ_tools (decideFn : DecideFn) (execFn : ToolCall → List Char)
    (f : Nat) (s : ChatState) :
    runChat decideFn execFn (f + 1) Node.tools s =
      runChat decideFn execFn f Node.check (chat_tools_node execFn s) := rfl

theorem runChat_succ_check (decideFn : DecideFn) (execFn : ToolCall → List Char)
    (f : Nat) (s : ChatState) (hs : ¬s.status = "completed") :
    runChat decideFn execFn (f + 1) Node.check s =
      runChat decideFn execFn f Node.agent { s with status := "continue" } := by
  have hcheck : chat_check_node s = { s with status := "continue" } := by
    rw [chat_check_node, if_neg hs]
  have hstep : chatStep decideFn execFn Node.check s
      = ({ s with status := "continue" }, some Node.agent) := by
    simp only [chatStep, hcheck]
    rw [if_neg (by decide)]
  show (match chatStep decideFn execFn Node.check s with
        | (s', none) => s'
        | (s', some nd') => runChat decideFn execFn f nd' s') = _
  rw [hstep]

theorem runChat_no_completion (decideFn : DecideFn) (execFn : ToolCall → List Char)
    (hdec : ∀ h tc, tc ∈ (decideFn h).2 → ¬tc.name = "report_completion") :
    ∀ (fuel : Nat) (nd : Node) (s : ChatState),
      ¬s.status = "completed" →
      (nd = Node.tools → ∀ c tcs, s.messages.getLast? = some (Msg.ai c tcs) →
        ∀ tc ∈ tcs, ¬tc.name = "report_completion") →
      ¬(runChat decideFn execFn fuel nd s).status = "completed" ∧
      (runChat decideFn execFn fuel nd s).health = s.health ∧
      (runChat decideFn execFn fuel nd s).health_description = s.health_description := by
  intro fuel
  induction fuel with
  | zero =>
    intro nd s hs _
    exact ⟨hs, rfl, rfl⟩
  | succ f ih =>
    intro nd s hs htools
    cases nd with
    | agent =>
      rw [runChat_succ_agent]
      have hnext : ∀ nd', nd' = Node.tools →
          ∀ c tcs, (chat_agent_node decideFn s).messages.getLast?
            = some (Msg.ai c tcs) → ∀ tc ∈ tcs, ¬tc.name = "report_completion" := by
        intro _ _ c tcs hlast tc htc
        rw [chat_agent_node] at hlast
        rw [List.getLast?_concat] at hlast
        cases hlast
        exact hdec _ tc htc
      by_cases hl : lastHasToolCalls (chat_agent_node decideFn s).messages = true
      · rw [if_pos hl]
        exact ih Node.tools (chat_agent_node decideFn s) hs (hnext Node.tools)
      · rw [if_neg hl]
        exact ih Node.check (chat_agent_node decideFn s) hs
          (by intro habs; exact absurd habs (by decide))
    | tools =>
      rw [runChat_succ_tools]
      have hfields := chat_tools_node_fields execFn s (htools rfl)
      have hrec := ih Node.check (chat_tools_node execFn s)
        (by rw [hfields.1]; exact hs)
        (by intro habs; exact absurd habs (by decide))
      exact ⟨hrec.1, hrec.2.1.trans hfields.2.1, hrec.2.2.trans hfields.2.2⟩
    | check =>
      rw [runChat_succ_check decideFn execFn f s hs]
      exact ih Node.agent { s with status := "continue" } (by simp)
        (by intro habs; exact absurd habs (by decide))

theorem runLogin_succ_agent (decideFn : DecideFn) (execFn : ToolCall → List Char)
    (env : Nat → Bool) (f : Nat) (s : LoginState) :
    runLogin decideFn execFn env (f + 1) Node.agent s =
      runLogin decideFn execFn env f
        (if lastHasToolCalls (login_agent_node decideFn s).messages
         then Node.tools else Node.check)
        (login_agent_node decideFn s) := rfl

theorem runLogin_succ_tools (decideFn : DecideFn) (execFn : ToolCall → List Char)
    (env : Nat → Bool) (f : Nat) (s : LoginState) :
    runLogin decideFn execFn env (f + 1) Node.tools s =
      runLogin decideFn execFn env f Node.check (login_tools_node execFn s) := rfl

theorem runLogin_succ_check (decideFn : DecideFn) (execFn : ToolCall → List Char)
    (env : Nat → Bool) (f : Nat) (s : LoginState) (henvf : env f = false) :
    runLogin decideFn execFn env (f + 1) Node.check s =
      runLogin decideFn execFn env f Node.agent { s with status := "continue" } := by
  have hck : login_check_node (env f) s = { s with status := "continue" } := by
    rw [login_check_node, henvf]
    simp
  have hstep : loginStep decideFn execFn (env f) Node.check s
      = ({ s with status := "continue" }, some Node.agent) := by
    simp only [loginStep, hck]
    rw [if_neg (by decide)]
  show (match loginStep decideFn execFn (env f) Node.check s with
        | (s', none) => s'
        | (s', some nd') => runLogin decideFn execFn env f nd' s') = _
  rw [hstep]

theorem runLogin_never_authenticated (decideFn : DecideFn)
    (execFn : ToolCall → List Char) (env : Nat → Bool)
    (henv : ∀ n, env n = false) :
    ∀ (fuel : Nat) (nd : Node) (s : LoginState),
      ¬s.status = "logged_in" →
      ¬(runLogin decideFn execFn env fuel nd s).status = "logged_in" := by
  intro fuel
  induction fuel with
  | zero =>
    intro nd s hs
    exact hs
  | succ f ih =>
    intro nd s hs
    cases nd with
    | agent =>
      rw [runLogin_succ_agent]
      by_cases hl : lastHasToolCalls (login_agent_node decideFn s).messages = true
      · rw [if_pos hl]
        exact ih Node.tools (login_agent_node decideFn s) hs
      · rw [if_neg hl]
        exact ih Node.check (login_agent_node decideFn s) hs
    | tools =>
      rw [runLogin_succ_tools]
      refine ih Node.check (login_tools_node execFn s) ?_
      rw [login_tools_node]
      cases hl : s.messages.getLast? with
      | none => exact hs
      | some m => cases m <;> simp_all
    | check =>
      rw [runLogin_succ_check decideFn execFn env f s (henv f)]
      exact ih Node.agent { s with status := "continue" } (by simp)

/-! ## Claims -/

/-- Demo decision function that never requests `report_completion`. -/
def demoDecide : DecideFn := fun _ => ("ok".toList, [])

/-- Demo tool executor. -/
def demoExec : ToolCall → List Char := fun _ => "done".toList

/-- The chat flow's initial state (run_chats.py:288-297). -/
def demoChatInit : ChatState :=
  { messages := [], num_turns := 1, turns_completed := 0, status := "start",
    health := "UNKNOWN", health_description := "", goal := "chat goal",
    artefacts_dir := "artefacts/run_chats" }

/-- The login flow's initial state (run_login.py:261-267). -/
def demoLoginInit : LoginState :=
  { messages := [], goal := "login goal", status := "start",
    artefacts_dir := "artefacts/run_login" }

/-- An environment in which the session never becomes authenticated. -/
def demoEnvNever : Nat → Bool := fun _ => false

/-- C1: the agent loop of each flow is hard-capped at a configured number
of iterations — 100 for the multi-turn chat flow (run_chats.py:350), a
smaller engine-default 25 for the single-goal login flow — and for every
decision function that never signals completion the bounded run (a total
function: no hang, no crash) ends with status ≠ completed and the health
fields exactly as they started. -/
theorem c1_loop_bound (decideFn : DecideFn) (execFn : ToolCall → List Char)
    (s : ChatState) (env : Nat → Bool) (sl : LoginState)
    (hdec : ∀ h tc, tc ∈ (decideFn h).2 → ¬tc.name = "report_completion")
    (henv : ∀ n, env n = false)
    (hs : ¬s.status = "completed") (hsl : ¬sl.status = "logged_in") :
    loginRecursionLimit < chatRecursionLimit ∧
    (¬(runChat decideFn execFn chatRecursionLimit Node.agent s).status = "completed" ∧
      (runChat decideFn execFn chatRecursionLimit Node.agent s).health = s.health ∧
      (runChat decideFn execFn chatRecursionLimit Node.agent s).health_description
        = s.health_description) ∧
    ¬(runLogin decideFn execFn env loginRecursionLimit Node.agent sl).status
      = "logged_in" := by
  refine ⟨by decide, ?_, ?_⟩
  · exact runChat_no_completion decideFn execFn hdec chatRecursionLimit Node.agent s
      hs (by intro habs; exact absurd habs (by decide))
  · exact runLogin_never_authenticated decideFn execFn env henv loginRecursionLimit
      Node.agent sl hsl

/-- C1 witness: the bound property at a concrete never-completing decision
function, executor and initial states. -/
theorem c1_witness :
    loginRecursionLimit < chatRecursionLimit ∧
    (¬(runChat demoDecide demoExec chatRecursionLimit Node.agent demoChatInit).status
        = "completed" ∧
      (runChat demoDecide demoExec chatRecursionLimit Node.agent demoChatInit).health
        = demoChatInit.health ∧
      (runChat demoDecide demoExec chatRecursionLimit Node.agent
        demoChatInit).health_description = demoChatInit.health_description) ∧
    ¬(runLogin demoDecide demoExec demoEnvNever loginRecursionLimit Node.agent
        demoLoginInit).status = "logged_in" :=
  c1_loop_bound demoDecide demoExec demoChatInit demoEnvNever demoLoginInit
    (by intro h tc htc; simp [demoDecide] at htc)
    (fun _ => rfl) (by decide) (by decide)

/-- C2 counterexample: the login flow's trace document embeds NO run
identifier (`run_id` key absent), so the error-escalation copy is keyed by
a fresh uuid drawn at copy time instead of an id generated at trace
creation. -/
theorem c2_counterexample :
    (loginExecutionTrace "2025-06-01T00:00:00" []).run_id = none ∧
    errorFolderRunId (loginExecutionTrace "2025-06-01T00:00:00" []) "fresh-uuid"
      = "fresh-uuid" :=
  ⟨rfl, rfl⟩

/-- C2 (amended): the CHAT flow's trace embeds a run id generated exactly
once at trace creation — it is fixed before (and regardless of) the
streamed steps — and the error-escalation copy carries that same id; the
LOGIN flow's trace embeds no run identifier at all, and its escalation
folder is keyed by a freshly drawn uuid. -/
theorem c2_trace_run_id (runId runType ts ts' fresh : String)
    (stream stream' : List StreamStep) :
    (chatExecutionTrace runId runType ts stream).run_id = some runId ∧
    (errorFolderCopy (chatExecutionTrace runId runType ts stream)).run_id
      = some runId ∧
    errorFolderRunId (chatExecutionTrace runId runType ts stream) fresh = runId ∧
    (chatExecutionTrace runId runType ts stream).run_id
      = (chatExecutionTrace runId runType ts stream').run_id ∧
    (loginExecutionTrace ts' stream).run_id = none ∧
    errorFolderRunId (loginExecutionTrace ts' stream) fresh = fresh := by
  have hchat : ∀ (st : List StreamStep),
      (chatExecutionTrace runId runType ts st).run_id = some runId := by
    intro st
    rw [chatExecutionTrace]
    cases finalState? st <;> rfl
  have hlogin : (loginExecutionTrace ts' stream).run_id = none := by
    rw [loginExecutionTrace]
    cases finalState? stream <;> rfl
  refine ⟨hchat stream, hchat stream, ?_, (hchat stream).trans (hchat stream').symm,
    hlogin, ?_⟩
  · rw [errorFolderRunId, hchat stream]
    rfl
  · rw [errorFolderRunId, hlogin]
    rfl

set_option maxRecDepth 20000 in
/-- C3 counterexample: on a 5-ToolMessage history where three messages
contain markup of at least 300 characters (lengths 350, 300 and 350) and a
fourth, shorter markup message comes last, the code's compaction differs
from the claimed one: the 300-character message is NOT rewritten (the code
truncates only strictly-longer-than-300 contents) and the last ≥300
markup message IS rewritten (the code excepts the most recent
markup-bearing message of any length, here the trailing short one). -/
theorem c3_counterexample :
    claimedCompact exHistory ≠ truncate_html_tool_messages exHistory := by
  decide

/-- C3 (amended): compaction returns a same-length, same-order history in
which every ToolMessage whose content contains markup and is STRICTLY
longer than 300 characters, except any whose id is that of the most
recent markup-bearing ToolMessage (of any length), is rewritten to its
first 100 and last 100 characters around a marker stating `length - 200`
characters were truncated, keeping its correlation id and message id;
every other message is returned unchanged. -/
theorem c3_compaction_contract (l : List Msg) :
    (truncate_html_tool_messages l).length = l.length ∧
    truncate_html_tool_messages l =
      l.map (fun m =>
        if isHtmlTool m = true ∧ some m.mid ≠ lastHtmlId l ∧ 300 < m.contentLen
        then Msg.tool (truncContent m.content) m.tcid m.mid
        else m) := by
  constructor
  · simp [truncate_html_tool_messages]
  · rw [truncate_html_tool_messages]
    exact List.map_congr_left fun m _ => compactMsg_eq_ite _ m

/-- C4 counterexample: compaction is NOT idempotent on every history. On
`hugeHistory`, whose first tool message holds `10 ^ 67 + 200` characters
of markup, the first pass produces a 301-character digest (68 marker
digits), which the second pass truncates again. -/
theorem c4_counterexample :
    truncate_html_tool_messages (truncate_html_tool_messages hugeHistory)
      ≠ truncate_html_tool_messages hugeHistory := by
  rw [truncate_truncate_huge, truncate_huge]
  intro h
  have h1 : Msg.tool (truncContent (truncContent hugeContent)) "c1" "t1"
      = Msg.tool (truncContent hugeContent) "c1" "t1" := by
    injection h
  have h2 : truncContent (truncContent hugeContent) = truncContent hugeContent := by
    injection h1
  have h3 := congrArg List.length h2
  rw [truncContent_digest_length, truncContent_huge_length] at h3
  norm_num at h3

/-- C4 (amended): compaction is idempotent on every history whose message
contents are shorter than `10 ^ 67 + 200` characters (so every truncation
digest stays within the 300-character threshold):
`compact (compact h) = compact h`. -/
theorem c4_idempotent_bounded (l : List Msg)
    (hb : ∀ m ∈ l, m.contentLen < 10 ^ 67 + 200) :
    truncate_html_tool_messages (truncate_html_tool_messages l)
      = truncate_html_tool_messages l :=
  truncate_idem_of_bound l hb

set_option maxRecDepth 20000 in
/-- C4 witness: idempotence on the concrete 5-message history. -/
theorem c4_witness :
    (∀ m ∈ exHistory, m.contentLen < 10 ^ 67 + 200) ∧
    truncate_html_tool_messages (truncate_html_tool_messages exHistory)
      = truncate_html_tool_messages exHistory :=
  ⟨by decide, c4_idempotent_bounded exHistory (by decide)⟩

theorem upload_folder_some {cfg : MonitorCfg} (uploadOk : String → Bool)
    (hcfg : cfg.s3_configured = true) (f : ErrFolder) (t : TraceDoc)
    (htr : f.trace = some t) :
    upload_folder_to_s3 cfg uploadOk f =
      .tup4 (decide (0 < uploadCount uploadOk f)) (some (s3PathOf cfg f))
        (uploadCount uploadOk f) t.final_health_description := by
  rw [upload_folder_to_s3, if_neg (by rw [hcfg]; simp), htr]

/-- A staged error folder as the monitor sees it: run id `runid123`, two
capture files, and a readable trace. -/
def demoTrace : TraceDoc :=
  { run_id := some "runid123", run_type := some "run_chats",
    timestamp := "2025-06-01T00:00:00", steps := [],
    final_status := some "completed", final_health := some "ERROR",
    final_health_description := some "submit failed", total_steps := some 3 }

/-- Error folder with the trace and two captures. -/
def demoFolder : ErrFolder :=
  { name := "runid123", ctime_date := "2025-06-01",
    pngs := ["final.png", "initial.png"], trace := some demoTrace }

/-- A staged folder whose trace file is unreadable. -/
def demoFolderNoTrace : ErrFolder :=
  { name := "runid999", ctime_date := "2025-06-02", pngs := [], trace := none }

/-- An S3/SNS-configured monitor without the retain flag. -/
def demoCfg : MonitorCfg :=
  { s3_configured := true, s3_prefix := "qa-monitoring",
    sns_configured := true, no_delete := false }

/-- A monitor whose S3 client/bucket is not configured. -/
def demoCfgNoS3 : MonitorCfg :=
  { s3_configured := false, s3_prefix := "qa-monitoring",
    sns_configured := false, no_delete := false }

/-- Per-file upload outcome: both images succeed, the trace upload fails. -/
def demoUploadOk : String → Bool := fun file => file != "execution_trace.json"

/-- Always-succeeding effect oracle. -/
def demoOk : String → Bool := fun _ => true

theorem demoUploadCount : uploadCount demoUploadOk demoFolder = 2 := by
  rw [uploadCount, (List.mergeSort_perm _ _).countP_eq]
  decide

/-- C5: with S3 configured and the folder's trace document readable, if
exactly `M` of the `N` staged files (trace plus captures) upload
successfully (`M < N`: the rest fail per-file, caught per-file so the loop
continues), `upload_folder_to_s3` returns `files_uploaded = M` and
`success = (M > 0)` — and the caller's 4-way unpacking succeeds, so
nothing is raised. -/
theorem c5_upload_partial (cfg : MonitorCfg) (uploadOk : String → Bool)
    (folder : ErrFolder) (t : TraceDoc) (M N : Nat)
    (hcfg : cfg.s3_configured = true) (htr : folder.trace = some t)
    (hM : uploadCount uploadOk folder = M)
    (_hN : (stagedFiles folder).length = N) (_hMN : M < N) :
    upload_folder_to_s3 cfg uploadOk folder =
      .tup4 (decide (0 < M)) (some (s3PathOf cfg folder)) M
        t.final_health_description ∧
    unpack4 (upload_folder_to_s3 cfg uploadOk folder) =
      .ok (decide (0 < M), some (s3PathOf cfg folder), M,
        t.final_health_description) := by
  have h := upload_folder_some uploadOk hcfg folder t htr
  rw [hM] at h
  exact ⟨h, by rw [h]; rfl⟩

/-- C5 witness: Scenario C — trace upload fails, both images succeed:
`files_uploaded = 2`, `success = true`, no exception. -/
theorem c5_witness :
    uploadCount demoUploadOk demoFolder = 2 ∧
    (stagedFiles demoFolder).length = 3 ∧
    (upload_folder_to_s3 demoCfg demoUploadOk demoFolder =
      .tup4 (decide (0 < 2)) (some (s3PathOf demoCfg demoFolder)) 2
        demoTrace.final_health_description ∧
    unpack4 (upload_folder_to_s3 demoCfg demoUploadOk demoFolder) =
      .ok (decide (0 < 2), some (s3PathOf demoCfg demoFolder), 2,
        demoTrace.final_health_description)) :=
  ⟨demoUploadCount, rfl,
    c5_upload_partial demoCfg demoUploadOk demoFolder demoTrace 2 3 rfl rfl
      demoUploadCount rfl (by decide)⟩

/-- C6: with S3 configured, `process_folders` (a) attempts a notification
exactly for the folders with at least one successfully uploaded file
(delivery then depending only on the SNS side), (b) actually removes
exactly the successfully-uploaded folders whose removal is permitted
(`no_delete` false) and succeeds, leaving every zero-success folder in
place for the next scan, and (c) under the retain flag removes nothing
while still counting every successfully-uploaded folder as processed.
Neither the processed count nor the deletions depend on the notification
outcome. -/
theorem c6_escalation_pipeline (cfg : MonitorCfg)
    (uploadOk snsOk deleteOk : String → Bool) (folders : List ErrFolder)
    (hcfg : cfg.s3_configured = true) :
    process_folders cfg uploadOk snsOk deleteOk folders =
      .ok { processed := (folders.filter (uploadSucc uploadOk)).countP
              (fun f => delete_folder deleteOk f cfg.no_delete),
            notified := (folders.filter (uploadSucc uploadOk)).map
              (fun f => (f.name, publish_delivered cfg snsOk f)),
            deleted := ((folders.filter (uploadSucc uploadOk)).filter
              (fun f => cfg.no_delete = false ∧ deleteOk f.name = true)).map
              (fun f => f.name) } ∧
    (cfg.no_delete = true →
      process_folders cfg uploadOk snsOk deleteOk folders =
        .ok { processed := (folders.filter (uploadSucc uploadOk)).length,
              notified := (folders.filter (uploadSucc uploadOk)).map
                (fun f => (f.name, publish_delivered cfg snsOk f)),
              deleted := [] }) := by
  have hmain := process_folders_go uploadOk snsOk deleteOk hcfg folders ⟨0, [], []⟩
  constructor
  · rw [process_folders, hmain]
    simp
  · intro hnd
    rw [process_folders, hmain]
    simp only [hnd, Except.ok.injEq, ProcOut.mk.injEq]
    refine ⟨?_, by simp, ?_⟩
    · simp [delete_folder, List.countP_true]
    · simp [hnd]

/-- C6 witness: one folder uploads (and is notified and deleted), the
folder with the unreadable trace is left in place. -/
theorem c6_witness :
    process_folders demoCfg demoOk demoOk demoOk [demoFolder, demoFolderNoTrace] =
      .ok { processed :=
              (([demoFolder, demoFolderNoTrace].filter (uploadSucc demoOk)).countP
                (fun f => delete_folder demoOk f demoCfg.no_delete)),
            notified := ([demoFolder, demoFolderNoTrace].filter
              (uploadSucc demoOk)).map
              (fun f => (f.name, publish_delivered demoCfg demoOk f)),
            deleted := ((([demoFolder, demoFolderNoTrace].filter
              (uploadSucc demoOk)).filter
              (fun f => demoCfg.no_delete = false ∧ demoOk f.name = true)).map
              (fun f => f.name)) } :=
  (c6_escalation_pipeline demoCfg demoOk demoOk demoOk
    [demoFolder, demoFolderNoTrace] rfl).1

/-- A driver whose `find_element` raises `NoSuchElementException`. -/
def failingDriver : DriverOutcome :=
  { find_element := .error "no such element", clear := .ok (),
    send_keys := .ok (), click := .ok () }

/-- C7 counterexample: the login flow's own `type_text` (run_login.py:87-123)
is NOT non-throwing — a `find_element` fault escapes the registry boundary
as an exception instead of a string failure result. -/
theorem c7_counterexample :
    (type_text_login failingDriver "pw".toList "em".toList "sel" "css"
      "hello".toList).ret = .error "no such element" := rfl

/-- C7 (amended): the SHARED registry's `type_text` and `click`
(utils/tools.py) are non-throwing across the registry boundary — every
driver fault is caught and returned as a string failure result, and an
unsupported selector strategy likewise yields a string — but the login
flow's own registry copies (run_login.py `build_tools`) propagate driver
faults as exceptions. -/
theorem c7_registry_fault_handling :
    (∀ (d : DriverOutcome) (pw email : List Char) (sel by_ : String)
      (text : List Char),
      (type_text_common d pw email sel by_ text).ret.isOk = true) ∧
    (∀ (d : DriverOutcome) (by_ : String), (click_common d by_).isOk = true) ∧
    (type_text_login failingDriver "pw".toList "em".toList "sel" "css"
      "hi".toList).ret = .error "no such element" ∧
    click_login failingDriver "css" = .error "no such element" := by
  refine ⟨?_, ?_, rfl, rfl⟩
  · intro d pw email sel by_ text
    cases hb : byMap by_ with
    | none => simp [type_text_common, hb, Except.isOk, Except.toBool]
    | some v =>
      cases hf : d.find_element with
      | error e => simp [type_text_common, hb, hf, Except.isOk, Except.toBool]
      | ok u =>
        cases hc : d.clear with
        | error e => simp [type_text_common, hb, hf, hc, Except.isOk, Except.toBool]
        | ok u2 =>
          cases hs : d.send_keys with
          | error e => simp [type_text_common, hb, hf, hc, hs, Except.isOk, Except.toBool]
          | ok u3 => simp [type_text_common, hb, hf, hc, hs, Except.isOk, Except.toBool]
  · intro d by_
    cases hb : byMap by_ with
    | none => simp [click_common, hb, Except.isOk, Except.toBool]
    | some v =>
      cases hf : d.find_element with
      | error e => simp [click_common, hb, hf, Except.isOk, Except.toBool]
      | ok u =>
        cases hc : d.click with
        | error e => simp [click_common, hb, hf, hc, Except.isOk, Except.toBool]
        | ok u2 => simp [click_common, hb, hf, hc, Except.isOk, Except.toBool]

/-- C10: with S3 unconfigured, `upload_folder_to_s3` returns a 3-element
tuple while `process_folders` unpacks four values, so processing any
non-empty folder list raises `ValueError` instead of skipping gracefully. -/
theorem c10_unconfigured_unpack (cfg : MonitorCfg)
    (uploadOk snsOk deleteOk : String → Bool) (f : ErrFolder)
    (rest : List ErrFolder) (hcfg : cfg.s3_configured = false) :
    upload_folder_to_s3 cfg uploadOk f = .tup3 false none 0 ∧
    process_folders cfg uploadOk snsOk deleteOk (f :: rest)
      = .error .valueError := by
  have hup : upload_folder_to_s3 cfg uploadOk f = .tup3 false none 0 := by
    rw [upload_folder_to_s3, if_pos hcfg]
  refine ⟨hup, ?_⟩
  rw [process_folders, List.foldlM_cons]
  have h1 : processOne cfg uploadOk snsOk deleteOk ⟨0, [], []⟩ f
      = .error PyError.valueError := by
    simp [processOne, hup, unpack4]
  rw [h1]
  rfl

/-- C10 witness: the raise at a concrete unconfigured monitor and folder. -/
theorem c10_witness :
    upload_folder_to_s3 demoCfgNoS3 demoOk demoFolder = .tup3 false none 0 ∧
    process_folders demoCfgNoS3 demoOk demoOk demoOk [demoFolder]
      = .error .valueError :=
  c10_unconfigured_unpack demoCfgNoS3 demoOk demoOk demoOk demoFolder [] rfl

theorem finalState?_eq_some {stream : List StreamStep} {st : StreamStep}
    (h : finalState? stream = some st) :
    stream.getLast? = some st ∧ st ≠ [] := by
  rw [finalState?] at h
  cases hg : stream.getLast? with
  | none =>
    rw [hg] at h
    exact absurd h (by simp)
  | some st' =>
    rw [hg] at h
    have h' : (if st'.isEmpty = true then none else some st') = some st := h
    by_cases he : st'.isEmpty = true
    · rw [if_pos he] at h'
      exact absurd h' (by simp)
    · rw [if_neg he] at h'
      cases h'
      exact ⟨rfl, by simpa [List.isEmpty_iff] using he⟩

/-- C8: each flow returns `(success, artefacts dir)`; login success is the
live authentication predicate — the same for ANY two agent conversations,
so independent of self-report — while chat success is exactly "the health
extracted from the trace recorder equals OK", which (for the single-node
steps this graph streams) coincides with the persisted trace's
`final_health = "OK"`. -/
theorem c8_run_result_contract :
    (∀ (stream s2 : List StreamStep) (page : PageState) (dir : String),
      (run_login_result stream page dir).1 = is_logged_in page ∧
      run_login_result stream page dir = run_login_result s2 page dir) ∧
    (∀ (stream : List StreamStep) (dir : String),
      ((run_chats_result stream dir).1 = true ↔ (chatRunInfo stream).1 = "OK")) ∧
    (∀ (stream : List StreamStep) (runId runType ts dir : String),
      (∀ st ∈ stream, st.length ≤ 1) →
      ((run_chats_result stream dir).1 = true ↔
        (chatExecutionTrace runId runType ts stream).final_health
          = some "OK")) := by
  refine ⟨fun stream s2 page dir => ⟨rfl, rfl⟩, ?_, ?_⟩
  · intro stream dir
    simp [run_chats_result]
  · intro stream runId runType ts dir hsingle
    cases hfs : finalState? stream with
    | none =>
      simp [run_chats_result, chatRunInfo, chatExecutionTrace, hfs]
    | some st =>
      obtain ⟨hlast, hne⟩ := finalState?_eq_some hfs
      have hmem : st ∈ stream := List.mem_of_mem_getLast? (by rw [hlast]; rfl)
      obtain ⟨p, rfl⟩ : ∃ p, st = [p] := by
        cases st with
        | nil => exact absurd rfl hne
        | cons p t =>
          cases t with
          | nil => exact ⟨p, rfl⟩
          | cons q t' =>
            have := hsingle _ hmem
            simp at this
      simp only [run_chats_result, chatRunInfo, chatExecutionTrace, hfs,
        lastField, List.foldl_cons, List.foldl_nil, List.head?_cons]
      cases hh : p.2.health with
      | none => simp
      | some v => simp

/-! ### C9 support: substitution facts -/

theorem splitGo_of_not_contains (pat : List Char) :
    ∀ (fuel : Nat) (s : List Char), s.length ≤ fuel →
      containsSub pat s = false → splitGo pat fuel s = [s] := by
  intro fuel
  induction fuel with
  | zero =>
    intro s h _
    have hs : s = [] := List.eq_nil_of_length_eq_zero (by omega)
    subst hs
    rfl
  | succ f ih =>
    intro s h hc
    cases s with
    | nil => rfl
    | cons c rest =>
      have hsplit : pat.isPrefixOf (c :: rest) = false ∧
          containsSub pat rest = false := by
        simpa [containsSub] using hc
      simp only [splitGo]
      rw [if_neg (by simp [hsplit.1]),
        ih rest (by simp at h; omega) hsplit.2]

theorem pyReplace_of_not_contains {pat s : List Char} (repl : List Char)
    (h : containsSub pat s = false) : pyReplace s pat repl = s := by
  rw [pyReplace_eq_joinWith, pySplit,
    splitGo_of_not_contains pat s.length s le_rfl h]
  rfl

/-- Transcribed from the claimed secrets policy: the typed text with EVERY
occurrence of `<PASSWORD>` replaced by the password, then every occurrence
of `<EMAIL>` replaced by the email (cut at each occurrence, re-join with
the credential value). -/
def fullSubstituted (text pw email : List Char) : List Char :=
  joinWith email
    (pySplit (joinWith pw (pySplit text passwordPlaceholder)) emailPlaceholder)

theorem joinWith_pySplit_eq (s pat repl : List Char) :
    joinWith repl (pySplit s pat) =
      if containsSub pat s = true then pyReplace s pat repl else s := by
  by_cases h : containsSub pat s = true
  · rw [if_pos h, pyReplace_eq_joinWith]
  · rw [if_neg h, pySplit,
      splitGo_of_not_contains _ _ _ le_rfl (by simpa using h)]
    rfl

/-- The code's two-step substitution is exactly the claimed one: every
occurrence of each placeholder replaced by its credential value. -/
theorem substitute_fst (text pw email : List Char) :
    (substitutePlaceholders text pw email).1 = fullSubstituted text pw email := by
  rw [fullSubstituted, joinWith_pySplit_eq, joinWith_pySplit_eq]
  rfl

theorem substitute_snd_mem (text pw email : List Char) :
    ∀ u ∈ (substitutePlaceholders text pw email).2,
      u = passwordPlaceholder ∨ u = emailPlaceholder := by
  intro u hu
  rw [substitutePlaceholders] at hu
  by_cases h1 : containsSub passwordPlaceholder text = true
  · simp only [h1, ite_true, List.mem_append] at hu
    rcases hu with hu | hu
    · left
      simpa using hu
    · right
      by_cases h2 : containsSub emailPlaceholder
          (pyReplace text passwordPlaceholder pw) = true <;>
        simp [h2] at hu
      all_goals simp [hu]
  · simp only [h1, ite_false, List.nil_append] at hu
    right
    by_cases h2 : containsSub emailPlaceholder text = true <;>
      simp [h2] at hu
    all_goals simp [hu]

theorem substitute_of_snd_nil (text pw email : List Char)
    (h : (substitutePlaceholders text pw email).2 = []) :
    (substitutePlaceholders text pw email).1 = text := by
  simp only [substitutePlaceholders] at h ⊢
  by_cases h1 : containsSub passwordPlaceholder text = true
  · simp [h1] at h
  · by_cases h2 : containsSub emailPlaceholder text = true
    · simp [h1, h2] at h
    · simp [h1, h2]

theorem substitute_snd_of_password (text pw email : List Char)
    (h1 : containsSub passwordPlaceholder text = true) :
    (substitutePlaceholders text pw email).2 ≠ [] := by
  rw [substitutePlaceholders]
  simp [h1]

theorem substitute_snd_email_only (text pw email : List Char)
    (h1 : containsSub passwordPlaceholder text = false)
    (h2 : containsSub emailPlaceholder text = true) :
    (substitutePlaceholders text pw email).2 = [emailPlaceholder] := by
  rw [substitutePlaceholders]
  simp [h1, h2]

theorem type_text_common_ok (pw email : List Char) (sel by_ : String)
    (text : List Char) (v : String) (hby : byMap by_ = some v) :
    type_text_common okDriver pw email sel by_ text =
      { ret := .ok "OK",
        sent := some (substitutePlaceholders text pw email).1,
        log := some (if (substitutePlaceholders text pw email).2.isEmpty
          then .plainLen sel by_ (substitutePlaceholders text pw email).1.length
          else .substituted sel by_ (substitutePlaceholders text pw email).2) } := by
  simp [type_text_common, hby, okDriver]

/-- C9: on a fault-free call, `type_text` substitutes every occurrence of
the reserved placeholders with the credential values immediately before
sending the text (the delivered text is exactly cut-at-every-occurrence,
re-join-with-the-value for `<PASSWORD>` then `<EMAIL>`); placeholder-free
text is typed unchanged and logged by length only; once a placeholder is
present, the log record carries only the selector, the strategy and the
placeholder NAMES; and the log never depends on the secret values beyond
which placeholders were recorded. -/
theorem c9_secrets_policy (pw email : List Char) (sel by_ : String)
    (text : List Char) (v : String) (hby : byMap by_ = some v) :
    (type_text_common okDriver pw email sel by_ text).sent
        = some (fullSubstituted text pw email) ∧
    (containsSub passwordPlaceholder text = false →
      containsSub emailPlaceholder text = false →
      (type_text_common okDriver pw email sel by_ text).sent = some text ∧
      (type_text_common okDriver pw email sel by_ text).log
        = some (LogLine.plainLen sel by_ text.length)) ∧
    ((containsSub passwordPlaceholder text = true ∨
        containsSub emailPlaceholder text = true) →
      ∃ used, (type_text_common okDriver pw email sel by_ text).log
          = some (LogLine.substituted sel by_ used) ∧ used ≠ [] ∧
        ∀ u ∈ used, u = passwordPlaceholder ∨ u = emailPlaceholder) ∧
    (∀ pw' email' : List Char,
      (substitutePlaceholders text pw' email').2
        = (substitutePlaceholders text pw email).2 →
      (type_text_common okDriver pw' email' sel by_ text).log
        = (type_text_common okDriver pw email sel by_ text).log) := by
  have hc := type_text_common_ok pw email sel by_ text v hby
  refine ⟨?_, ?_, ?_, ?_⟩
  · rw [hc]
    exact congrArg some (substitute_fst text pw email)
  · intro h1 h2
    have hsu : substitutePlaceholders text pw email = (text, []) := by
      simp [substitutePlaceholders, h1, h2]
    rw [hc, hsu]
    exact ⟨rfl, rfl⟩
  · intro hor
    by_cases h1 : containsSub passwordPlaceholder text = true
    · refine ⟨(substitutePlaceholders text pw email).2, ?_,
        substitute_snd_of_password text pw email h1,
        substitute_snd_mem text pw email⟩
      rw [hc]
      have hne := substitute_snd_of_password text pw email h1
      show some _ = some _
      congr 1
      rw [if_neg (by simpa [List.isEmpty_iff] using hne)]
    · have h2 : containsSub emailPlaceholder text = true := by
        rcases hor with h | h
        · exact absurd h h1
        · exact h
      have hsnd := substitute_snd_email_only text pw email (by simpa using h1) h2
      refine ⟨[emailPlaceholder], ?_, by simp, ?_⟩
      · rw [hc]
        show some _ = some _
        congr 1
        rw [hsnd]
        simp
      · intro u hu
        right
        simpa using hu
  · intro pw' email' hsame
    have hc' := type_text_common_ok pw' email' sel by_ text v hby
    rw [hc, hc']
    show some _ = some _
    congr 1
    rw [hsame]
    by_cases he : (substitutePlaceholders text pw email).2.isEmpty = true
    · rw [if_pos he, if_pos he]
      have e1 : (substitutePlaceholders text pw email).1 = text :=
        substitute_of_snd_nil _ _ _ (by simpa [List.isEmpty_iff] using he)
      have e2 : (substitutePlaceholders text pw' email').1 = text :=
        substitute_of_snd_nil _ _ _
          (by rw [hsame]; simpa [List.isEmpty_iff] using he)
      rw [e1, e2]
    · rw [if_neg he, if_neg he]

/-- A text carrying both reserved placeholders. -/
def demoText : List Char := "email <EMAIL> pass <PASSWORD>".toList

/-- A demo password value. -/
def demoPw : List Char := "s3cret".toList

/-- A demo email value. -/
def demoEmail : List Char := "qa@example.com".toList

/-- C9 witness: the policy at a concrete selector, strategy, text and
credential pair. -/
theorem c9_witness :
    byMap "css" = some "css selector" ∧
    ((type_text_common okDriver demoPw demoEmail "input#field" "css"
        demoText).sent = some (fullSubstituted demoText demoPw demoEmail) ∧
    (containsSub passwordPlaceholder demoText = false →
      containsSub emailPlaceholder demoText = false →
      (type_text_common okDriver demoPw demoEmail "input#field" "css"
        demoText).sent = some demoText ∧
      (type_text_common okDriver demoPw demoEmail "input#field" "css"
        demoText).log
        = some (LogLine.plainLen "input#field" "css" demoText.length)) ∧
    ((containsSub passwordPlaceholder demoText = true ∨
        containsSub emailPlaceholder demoText = true) →
      ∃ used, (type_text_common okDriver demoPw demoEmail "input#field" "css"
          demoText).log = some (LogLine.substituted "input#field" "css" used) ∧
        used ≠ [] ∧
        ∀ u ∈ used, u = passwordPlaceholder ∨ u = emailPlaceholder) ∧
    (∀ pw' email' : List Char,
      (substitutePlaceholders demoText pw' email').2
        = (substitutePlaceholders demoText demoPw demoEmail).2 →
      (type_text_common okDriver pw' email' "input#field" "css" demoText).log
        = (type_text_common okDriver demoPw demoEmail "input#field" "css"
            demoText).log)) :=
  ⟨rfl, c9_secrets_policy demoPw demoEmail "input#field" "css" demoText
    "css selector" rfl⟩

end ParallelLMQA